import Mathlib

/-!
Shallow embedding of the WhatsApp OSINT API server (src/index.js): the
route handler for GET check with its NodeCache-backed caching, the
upstream whatsapp-web.js client as the handler calls it, and the
gracefulShutdown routine, together with theorems settling the frozen
claims about the specification.
-/

namespace WhatsAppOSINT

/-- JSON-style primitive values appearing as fields of the objects the
handler builds (null, booleans, strings). -/
inductive JPrim where
  | pnull : JPrim
  | pbool : Bool → JPrim
  | pstr : String → JPrim
deriving Repr, DecidableEq

/-- A flat JavaScript object: an ordered field list, exactly as the route
handler builds the result object field by field. -/
abbrev JObj := List (String × JPrim)

/-- JavaScript values as far as the cache and the truthiness-based hit test
observe them. -/
inductive JSVal where
  | vundefined : JSVal
  | vnull : JSVal
  | vbool : Bool → JSVal
  | vnum : Int → JSVal
  | vstr : String → JSVal
  | vobj : JObj → JSVal
deriving Repr, DecidableEq

/-- JavaScript truthiness, as used by the hit test on line 183 of
src/index.js: undefined, null, false, 0 and the empty string are falsy;
every object is truthy. -/
def truthy : JSVal → Bool
  | .vundefined => false
  | .vnull => false
  | .vbool b => b
  | .vnum n => decide (n ≠ 0)
  | .vstr s => decide (s ≠ "")
  | .vobj _ => true

/-- The in-memory cache (NodeCache with stdTTL, src lines 67 to 70):
keyed entries carrying the stored value and their insertion time, plus the
configured time-to-live in seconds. -/
structure Cache where
  ttl : Nat
  entries : List (String × JSVal × Nat)
deriving Repr, DecidableEq

/-- NodeCache get: the stored value when the key is present and unexpired
(an entry inserted at time t is live while now is at most t plus ttl),
undefined otherwise. -/
def Cache.get (c : Cache) (k : String) (now : Nat) : JSVal :=
  match c.entries.find? (fun e => e.1 == k) with
  | some (_, v, t) => if now ≤ t + c.ttl then v else .vundefined
  | none => .vundefined

/-- NodeCache set: replaces any entry for the key, recording the insertion
time (src line 206). -/
def Cache.set (c : Cache) (k : String) (v : JSVal) (now : Nat) : Cache :=
  { c with entries := (k, v, now) :: c.entries.filter (fun e => !(e.1 == k)) }

/-- NodeCache flushAll: drops every entry (src line 239). -/
def Cache.flushAll (c : Cache) : Cache :=
  { c with entries := [] }

/-- Contact data yielded by getContactById as the handler reads it:
pushname, number and isBusiness; a value of none models an undefined
JavaScript field. -/
structure Contact where
  pushname : Option String
  number : Option String
  isBusiness : Option Bool
deriving Repr, DecidableEq

/-- The external whatsapp-web.js client as the handler calls it: each
awaited method either resolves or rejects. A rejection covers every
failure mode, including the client not being ready. getProfilePicUrl is
keyed by the same contact id the contact was fetched for; a resolved value
of none models an undefined profile picture URL. -/
structure UpstreamClient where
  isRegisteredUser : String → Except Unit Bool
  getContactById : String → Except Unit Contact
  getProfilePicUrl : String → Except Unit (Option String)

/-- The JavaScript expression (s or-else null) for an optional string
field: undefined and the empty string are falsy and normalize to null
(src lines 199 to 201). -/
def orNullStr : Option String → JPrim
  | none => .pnull
  | some s => if s = "" then .pnull else .pstr s

/-- The JavaScript expression (b or-else false): an undefined isBusiness
normalizes to false (src line 202). -/
def orFalse : Option Bool → Bool
  | none => false
  | some b => b

/-- Cache key construction (src line 179): a fixed literal prefix followed
by the phone parameter. -/
def cacheKey (phone : String) : String := "whatsapp_user_" ++ phone

/-- The X-Cache-Status header values. -/
inductive CacheStatus where
  | HIT : CacheStatus
  | MISS : CacheStatus
deriving Repr, DecidableEq

/-- The HTTP response as the handler constructs it: status code, the
optional X-Cache-Status header, and the JSON body fields success, result,
source and error. -/
structure Response where
  status : Nat
  cacheStatus : Option CacheStatus
  success : Bool
  result : Option JSVal
  source : Option String
  error : Option String
deriving Repr, DecidableEq

/-- Src lines 191 to 203: the registration check and the conditional
profile fetch, building the result object field by field; any rejection of
an awaited call propagates to the catch branch. -/
def buildResult (client : UpstreamClient) (phoneNumberId : String) : Except Unit JObj :=
  match client.isRegisteredUser phoneNumberId with
  | .error e => .error e
  | .ok isRegistered =>
    if isRegistered then
      match client.getContactById phoneNumberId with
      | .error e => .error e
      | .ok contact =>
        match client.getProfilePicUrl phoneNumberId with
        | .error e => .error e
        | .ok pfpUrl =>
          .ok [("registered", .pbool true),
               ("name", orNullStr contact.pushname),
               ("number", orNullStr contact.number),
               ("profile_picture_url", orNullStr pfpUrl),
               ("is_business", .pbool (orFalse contact.isBusiness))]
    else
      .ok [("registered", .pbool false)]

/-- Observable outcome of one handler invocation: the response, the cache
afterwards, the number of upstream registration queries issued, and the
number of cache reads performed. -/
structure HandlerOut where
  resp : Response
  cache : Cache
  upstreamCalls : Nat
  cacheReads : Nat
deriving Repr

/-- Outcome of the synchronous prefix of the handler (src lines 182 to
187): a cache hit carrying the retrieved value, or a miss. This prefix
runs without any suspension point, so under cooperative concurrency two
requests can both complete it before either upstream call resolves. -/
inductive Phase1 where
  | hit : JSVal → Phase1
  | miss : Phase1
deriving Repr, DecidableEq

/-- The cache read and the truthiness hit test (src lines 182 to 183). -/
def handlerPhase1 (cache : Cache) (now : Nat) (phone : String) : Phase1 :=
  let cachedData := cache.get (cacheKey phone) now
  if truthy cachedData then .hit cachedData else .miss

/-- The miss continuation (src lines 188 to 213): the upstream query, the
cache write on success, and the generic 500 response in the catch
branch. -/
def handlerPhase2 (client : UpstreamClient) (cache : Cache) (now : Nat) (phone : String) :
    HandlerOut :=
  match buildResult client (phone ++ "@c.us") with
  | .ok result =>
      { resp := { status := 200, cacheStatus := some .MISS, success := true,
                  result := some (.vobj result), source := some "live", error := none },
        cache := cache.set (cacheKey phone) (.vobj result) now,
        upstreamCalls := 1, cacheReads := 0 }
  | .error _ =>
      { resp := { status := 500, cacheStatus := some .MISS, success := false,
                  result := none, source := none,
                  error := some "An internal server error occurred." },
        cache := cache, upstreamCalls := 1, cacheReads := 0 }

/-- Completes a request from its phase-1 outcome: a hit answers from the
cache (src lines 183 to 186), a miss runs the continuation against the
cache state current at that moment. -/
def finishPhase1 (client : UpstreamClient) (cache : Cache) (now : Nat) (phone : String) :
    Phase1 → HandlerOut
  | .hit cachedData =>
      { resp := { status := 200, cacheStatus := some .HIT, success := true,
                  result := some cachedData, source := some "cache", error := none },
        cache := cache, upstreamCalls := 0, cacheReads := 1 }
  | .miss =>
      let out := handlerPhase2 client cache now phone
      { out with cacheReads := 1 }

/-- The GET check route handler (src lines 177 to 214), for a phone that
passed schema validation. -/
def handler (client : UpstreamClient) (cache : Cache) (now : Nat) (phone : String) :
    HandlerOut :=
  finishPhase1 client cache now phone (handlerPhase1 cache now phone)

/-- The route schema pattern, digits one-or-more anchored at both ends
(src line 172): the phone parameter is nonempty and digits only. -/
def validPhone (phone : String) : Bool :=
  decide (phone.data ≠ []) && phone.data.all Char.isDigit

/-- Modelled from the spec: the HTTP framework (Fastify, not code of this
repository) enforces the params schema declared on the route (src lines
166 to 176) before invoking the handler and, on violation, produces a
400-class validation response whose body has success false and error
"validation", without invoking the handler and hence without touching the
cache or the client. -/
def validationResponse : Response :=
  { status := 400, cacheStatus := none, success := false,
    result := none, source := none, error := some "validation" }

/-- Route dispatch: schema validation first, then the handler. -/
def route (client : UpstreamClient) (cache : Cache) (now : Nat) (phone : String) :
    HandlerOut :=
  if validPhone phone then handler client cache now phone
  else { resp := validationResponse, cache := cache, upstreamCalls := 0, cacheReads := 0 }

/-- Cooperative interleaving of two requests for the same phone in which
both run their synchronous prefix (cache read and hit test) against the
initial cache before either upstream query resolves; request A then
completes its continuation, then request B completes its continuation
against the cache A left behind. This is the scheduling the single-threaded
event loop produces when the second request arrives while the first is
suspended on its first await. -/
def concurrentTwo (client : UpstreamClient) (cache : Cache) (now : Nat) (phone : String) :
    HandlerOut × HandlerOut :=
  let p1A := handlerPhase1 cache now phone
  let p1B := handlerPhase1 cache now phone
  let outA := finishPhase1 client cache now phone p1A
  let outB := finishPhase1 client outA.cache now phone p1B
  (outA, outB)

/-- Whether the client object exists and whether its internal Puppeteer
browser instance (pupBrowser) was constructed. -/
structure ClientHandle where
  pupBrowser : Bool
deriving Repr, DecidableEq

/-- Observable effects of gracefulShutdown (src lines 224 to 243). -/
structure ShutdownEffects where
  serverClosed : Bool
  clientDestroyed : Bool
  cacheFlushed : Bool
  exited : Bool
  exitCode : Nat
deriving Repr, DecidableEq

/-- gracefulShutdown (src lines 224 to 243): close the server if it exists
and is listening, destroy the client only if it exists and its pupBrowser
was constructed, flush the cache, and exit with code 1 exactly when the
signal string is "Startup Failure" and code 0 otherwise. -/
def gracefulShutdown (client : Option ClientHandle) (serverListening : Option Bool)
    (signal : String) (cache : Cache) : ShutdownEffects × Cache :=
  ({ serverClosed := match serverListening with | some b => b | none => false,
     clientDestroyed := match client with | some c => c.pupBrowser | none => false,
     cacheFlushed := true,
     exited := true,
     exitCode := if signal = "Startup Failure" then 1 else 0 },
   cache.flushAll)

/-- The reason strings passed to gracefulShutdown at its call sites: the
signal handlers (src line 266), the auth failure handler (src line 147)
and the startup catch branch (src line 276). -/
def sigintSignal : String := "SIGINT"

def sigtermSignal : String := "SIGTERM"

def startupFailureSignal : String := "Startup Failure"

def authFailureSignal : String := "Authentication Failure"

/-- A concrete upstream client matching the example of the spec: every
number is registered, with pushname Alice, number 15559999999, no profile
picture and not a business account. -/
def aliceClient : UpstreamClient :=
  { isRegisteredUser := fun _ => .ok true,
    getContactById := fun _ =>
      .ok { pushname := some "Alice", number := some "15559999999", isBusiness := some false },
    getProfilePicUrl := fun _ => .ok none }

/-- A concrete upstream client modelling a session that is not ready:
every awaited call rejects. -/
def notReadyClient : UpstreamClient :=
  { isRegisteredUser := fun _ => .error (),
    getContactById := fun _ => .error (),
    getProfilePicUrl := fun _ => .error () }

/-- A concrete upstream client whose registration check succeeds with a
registered number but whose profile fetch rejects. -/
def profileFailClient : UpstreamClient :=
  { isRegisteredUser := fun _ => .ok true,
    getContactById := fun _ => .error (),
    getProfilePicUrl := fun _ => .error () }

/-- An empty cache with the default 600 second time-to-live (src line
39). -/
def emptyCache : Cache := { ttl := 600, entries := [] }

/-- The result object the handler builds for the Alice example, with the
field names the code actually uses. -/
def aliceResult : JObj :=
  [("registered", .pbool true), ("name", .pstr "Alice"), ("number", .pstr "15559999999"),
   ("profile_picture_url", .pnull), ("is_business", .pbool false)]

/-- Whether a flat object carries a field with the given name. -/
def hasField (o : JObj) (k : String) : Bool :=
  o.any (fun f => f.1 == k)

/-- Whether a JavaScript value is an object whose first field is a boolean
named registered, the shape of every value the handler stores. -/
def isLookupObj : JSVal → Bool
  | .vobj (("registered", .pbool _) :: _) => true
  | _ => false

/-- A helper for key isolation: filtering out the entries for one key does
not change what find? locates for a different key. -/
theorem find?_filter_other {α : Type} (l : List (String × α)) (k1 k2 : String)
    (h : (k1 == k2) = false) :
    (l.filter (fun e => !(e.1 == k1))).find? (fun e => e.1 == k2) =
      l.find? (fun e => e.1 == k2) := by
  induction l with
  | nil => rfl
  | cons e l ih =>
    by_cases h1 : (e.1 == k1) = true
    · have hk : e.1 = k1 := eq_of_beq h1
      have h2 : (e.1 == k2) = false := by rw [hk]; exact h
      simp [List.filter_cons, h1, List.find?_cons, h2, ih]
    · have h1f : (e.1 == k1) = false := by simpa using h1
      by_cases h2 : (e.1 == k2) = true
      · simp [List.filter_cons, h1f, List.find?_cons, h2]
      · have h2f : (e.1 == k2) = false := by simpa using h2
        simp [List.filter_cons, h1f, List.find?_cons, h2f, ih]

/-- Writing one key leaves reads of any other key unchanged. -/
theorem Cache.get_set_other (c : Cache) (k1 k2 : String) (v : JSVal) (t now : Nat)
    (h : k1 ≠ k2) :
    (c.set k1 v t).get k2 now = c.get k2 now := by
  have hb : (k1 == k2) = false := by simpa using h
  unfold Cache.set Cache.get
  simp only [List.find?_cons, hb, find?_filter_other c.entries k1 k2 hb]

/-- C3 counterexample: a shutdown triggered by the authentication failure
handler (which passes the reason string "Authentication Failure", src line
147) exits with code 0, not a non-zero code as the claim requires for
fatal session-establishment errors. -/
theorem c3_counterexample :
    (gracefulShutdown (some { pupBrowser := true }) (some true)
        authFailureSignal emptyCache).1.exitCode = 0 := by
  decide

/-- C3 amended: the process exits with code 0 for the voluntary signals
SIGINT and SIGTERM, with code 1 for shutdowns whose reason is "Startup
Failure", and also with code 0 for shutdowns triggered by authentication
failure, whose reason string "Authentication Failure" does not match the
"Startup Failure" test. -/
theorem c3_exit_codes (client : Option ClientHandle) (server : Option Bool) (cache : Cache) :
    (gracefulShutdown client server sigintSignal cache).1.exitCode = 0 ∧
    (gracefulShutdown client server sigtermSignal cache).1.exitCode = 0 ∧
    (gracefulShutdown client server startupFailureSignal cache).1.exitCode = 1 ∧
    (gracefulShutdown client server authFailureSignal cache).1.exitCode = 0 := by
  refine ⟨?_, ?_, ?_, ?_⟩ <;>
    simp [gracefulShutdown, sigintSignal, sigtermSignal, startupFailureSignal,
      authFailureSignal]

/-- C8: a shutdown invoked while the client does not exist or its browser
resource was never constructed does not destroy the client, still flushes
the cache, and still exits the process. -/
theorem c8_shutdown_never_initialized (client : Option ClientHandle) (server : Option Bool)
    (signal : String) (cache : Cache)
    (h : client = none ∨ client = some { pupBrowser := false }) :
    (gracefulShutdown client server signal cache).1.clientDestroyed = false ∧
    (gracefulShutdown client server signal cache).1.cacheFlushed = true ∧
    (gracefulShutdown client server signal cache).2.entries = [] ∧
    (gracefulShutdown client server signal cache).1.exited = true := by
  rcases h with h | h <;> subst h <;> simp [gracefulShutdown, Cache.flushAll]

/-- C8 witness: shutdown on SIGINT with no client constructed. -/
theorem c8_shutdown_never_initialized_witness :
    (gracefulShutdown none (some true) sigintSignal emptyCache).1.clientDestroyed = false ∧
    (gracefulShutdown none (some true) sigintSignal emptyCache).1.cacheFlushed = true ∧
    (gracefulShutdown none (some true) sigintSignal emptyCache).2.entries = [] ∧
    (gracefulShutdown none (some true) sigintSignal emptyCache).1.exited = true :=
  c8_shutdown_never_initialized none (some true) sigintSignal emptyCache (Or.inl rfl)

/-- C9: distinct phone identifiers yield distinct cache keys, and a cache
write under one identifier never changes what a read under a different
identifier returns. -/
theorem c9_cache_key_isolation (p1 p2 : String) (cache : Cache) (v : JSVal) (t now : Nat)
    (h : p1 ≠ p2) :
    cacheKey p1 ≠ cacheKey p2 ∧
    (cache.set (cacheKey p1) v t).get (cacheKey p2) now = cache.get (cacheKey p2) now := by
  have hkey : cacheKey p1 ≠ cacheKey p2 := by
    intro he
    apply h
    have hdata : ("whatsapp_user_" ++ p1).data = ("whatsapp_user_" ++ p2).data :=
      congrArg String.data he
    rw [String.data_append, String.data_append] at hdata
    exact String.ext (List.append_cancel_left hdata)
  exact ⟨hkey, Cache.get_set_other cache (cacheKey p1) (cacheKey p2) v t now hkey⟩

/-- C9 witness: the concrete identifiers 15551234567 and 15559999999. -/
theorem c9_cache_key_isolation_witness :
    cacheKey "15551234567" ≠ cacheKey "15559999999" ∧
    (emptyCache.set (cacheKey "15551234567") (.vobj aliceResult) 0).get
        (cacheKey "15559999999") 0 =
      emptyCache.get (cacheKey "15559999999") 0 :=
  c9_cache_key_isolation "15551234567" "15559999999" emptyCache (.vobj aliceResult) 0 0
    (by decide)

/-- C4: a raw identifier that is empty or contains a non-digit character
fails schema validation, so the request gets the 400-class validation
response with success false and error "validation", the cache is neither
read nor written, and the upstream client is never called. -/
theorem c4_validation_rejects (client : UpstreamClient) (cache : Cache) (now : Nat)
    (phone : String)
    (hbad : phone.data = [] ∨ ∃ c ∈ phone.data, Char.isDigit c = false) :
    (route client cache now phone).resp = validationResponse ∧
    (route client cache now phone).cache = cache ∧
    (route client cache now phone).upstreamCalls = 0 ∧
    (route client cache now phone).cacheReads = 0 := by
  have hv : validPhone phone = false := by
    unfold validPhone
    rcases hbad with h | ⟨c, hc, hcd⟩
    · simp [h]
    · cases hall : phone.data.all Char.isDigit with
      | false => simp [hall]
      | true =>
        exfalso
        have := List.all_eq_true.mp hall c hc
        rw [hcd] at this
        exact Bool.false_ne_true this
  simp [route, hv]

/-- C4 witness: the non-digit identifier abc from the spec example. -/
theorem c4_validation_rejects_witness :
    (route aliceClient emptyCache 0 "abc").resp = validationResponse ∧
    (route aliceClient emptyCache 0 "abc").cache = emptyCache ∧
    (route aliceClient emptyCache 0 "abc").upstreamCalls = 0 ∧
    (route aliceClient emptyCache 0 "abc").cacheReads = 0 :=
  c4_validation_rejects aliceClient emptyCache 0 "abc" (by decide)

/-- C1 counterexample: two concurrent lookups for the same valid
identifier, both issued before either resolves (both cache reads precede
both upstream resolutions), perform two upstream registration queries in
total, not the single query the claim requires: the handler has no
coalescing slot. -/
theorem c1_counterexample :
    (concurrentTwo aliceClient emptyCache 0 "15551234567").1.upstreamCalls +
        (concurrentTwo aliceClient emptyCache 0 "15551234567").2.upstreamCalls = 2 ∧
    ¬ ((concurrentTwo aliceClient emptyCache 0 "15551234567").1.upstreamCalls +
        (concurrentTwo aliceClient emptyCache 0 "15551234567").2.upstreamCalls = 1) := by
  constructor
  · rfl
  · intro h
    rw [show (concurrentTwo aliceClient emptyCache 0 "15551234567").1.upstreamCalls +
        (concurrentTwo aliceClient emptyCache 0 "15551234567").2.upstreamCalls = 2 from rfl] at h
    exact absurd h (by decide)

/-- C1 amended: when two concurrent lookups for the same identifier both
read the cache before either upstream call resolves and the cache holds no
fresh truthy entry for that identifier, each request performs its own
upstream query — two in total — because the handler has no request
coalescing; each caller then receives the outcome of its own upstream
computation. -/
theorem c1_no_coalescing (client : UpstreamClient) (cache : Cache) (now : Nat)
    (phone : String)
    (hmiss : truthy (cache.get (cacheKey phone) now) = false) :
    (concurrentTwo client cache now phone).1.upstreamCalls = 1 ∧
    (concurrentTwo client cache now phone).2.upstreamCalls = 1 := by
  have hp1 : handlerPhase1 cache now phone = .miss := by
    unfold handlerPhase1
    simp [hmiss]
  unfold concurrentTwo
  simp only [hp1]
  unfold finishPhase1 handlerPhase2
  cases buildResult client (phone ++ "@c.us") <;> simp

/-- C1 amended witness: the Alice client on an empty cache. -/
theorem c1_no_coalescing_witness :
    (concurrentTwo aliceClient emptyCache 0 "15559999999").1.upstreamCalls = 1 ∧
    (concurrentTwo aliceClient emptyCache 0 "15559999999").2.upstreamCalls = 1 :=
  c1_no_coalescing aliceClient emptyCache 0 "15559999999" (by decide)

/-- C2 counterexample: a lookup for a valid identifier while the session
is not ready (every awaited client call rejects) and the cache is empty is
answered with the generic 500 internal-server-error response, not with a
distinct not-ready or service-unavailable outcome. -/
theorem c2_counterexample :
    (handler notReadyClient emptyCache 0 "15551234567").resp.status = 500 ∧
    (handler notReadyClient emptyCache 0 "15551234567").resp.error =
      some "An internal server error occurred." ∧
    (handler notReadyClient emptyCache 0 "15551234567").resp.success = false := by
  refine ⟨rfl, rfl, rfl⟩

/-- C2 amended: when the session is not ready, any awaited client call
rejects, so a lookup whose cache read finds no fresh truthy entry is
answered by the catch branch with the generic 500 internal-server-error
response (success false), no cache entry is written, and no distinct
not-ready outcome exists; a lookup that finds a fresh cache entry returns
it regardless of session state. -/
theorem c2_not_ready_generic_500 (client : UpstreamClient) (cache : Cache) (now : Nat)
    (phone : String)
    (hnr : client.isRegisteredUser (phone ++ "@c.us") = .error ())
    (hmiss : truthy (cache.get (cacheKey phone) now) = false) :
    (handler client cache now phone).resp.status = 500 ∧
    (handler client cache now phone).resp.success = false ∧
    (handler client cache now phone).resp.error =
      some "An internal server error occurred." ∧
    (handler client cache now phone).cache = cache := by
  have hp1 : handlerPhase1 cache now phone = .miss := by
    unfold handlerPhase1
    simp [hmiss]
  have hbr : buildResult client (phone ++ "@c.us") = .error () := by
    unfold buildResult
    rw [hnr]
  unfold handler finishPhase1 handlerPhase2
  simp [hp1, hbr]

/-- C2 amended witness: the not-ready client on an empty cache. -/
theorem c2_not_ready_generic_500_witness :
    (handler notReadyClient emptyCache 0 "15559999999").resp.status = 500 ∧
    (handler notReadyClient emptyCache 0 "15559999999").resp.success = false ∧
    (handler notReadyClient emptyCache 0 "15559999999").resp.error =
      some "An internal server error occurred." ∧
    (handler notReadyClient emptyCache 0 "15559999999").cache = emptyCache :=
  c2_not_ready_generic_500 notReadyClient emptyCache 0 "15559999999" rfl (by decide)

/-- Reading the key just written returns the written value while it is
unexpired. -/
theorem Cache.get_set_self (c : Cache) (k : String) (v : JSVal) (t now : Nat)
    (h : now ≤ t + c.ttl) :
    (c.set k v t).get k now = v := by
  unfold Cache.set Cache.get
  simp [List.find?_cons, h]

/-- C5: when the registration check succeeds with a registered number but
the subsequent profile fetch rejects (either getContactById or
getProfilePicUrl), the whole lookup surfaces as a 500 failure with success
false, no result object is returned, and the cache is unchanged. -/
theorem c5_profile_failure_no_partial (client : UpstreamClient) (cache : Cache) (now : Nat)
    (phone : String)
    (hreg : client.isRegisteredUser (phone ++ "@c.us") = .ok true)
    (hfail : client.getContactById (phone ++ "@c.us") = .error () ∨
             ∃ ct, client.getContactById (phone ++ "@c.us") = .ok ct ∧
                   client.getProfilePicUrl (phone ++ "@c.us") = .error ())
    (hmiss : truthy (cache.get (cacheKey phone) now) = false) :
    (handler client cache now phone).resp.success = false ∧
    (handler client cache now phone).resp.status = 500 ∧
    (handler client cache now phone).resp.result = none ∧
    (handler client cache now phone).cache = cache := by
  have hbr : buildResult client (phone ++ "@c.us") = .error () := by
    unfold buildResult
    rw [hreg]
    rcases hfail with h | ⟨ct, hct, hp⟩
    · simp [h]
    · simp [hct, hp]
  have hp1 : handlerPhase1 cache now phone = .miss := by
    unfold handlerPhase1
    simp [hmiss]
  unfold handler finishPhase1 handlerPhase2
  simp [hp1, hbr]

/-- C5 witness: a client whose registration check resolves true and whose
contact fetch rejects, on an empty cache. -/
theorem c5_profile_failure_no_partial_witness :
    (handler profileFailClient emptyCache 0 "15551234567").resp.success = false ∧
    (handler profileFailClient emptyCache 0 "15551234567").resp.status = 500 ∧
    (handler profileFailClient emptyCache 0 "15551234567").resp.result = none ∧
    (handler profileFailClient emptyCache 0 "15551234567").cache = emptyCache :=
  c5_profile_failure_no_partial profileFailClient emptyCache 0 "15551234567" rfl
    (Or.inl rfl) (by decide)

/-- C6: after a successful live lookup, a second lookup for the same
identifier within the TTL window answers from the cache with identical
result content, source cache, the X-Cache-Status HIT header, and no second
upstream call. -/
theorem c6_second_lookup_hits (client : UpstreamClient) (cache : Cache) (t tP : Nat)
    (phone : String) (r : JObj)
    (hmiss : truthy (cache.get (cacheKey phone) t) = false)
    (hok : buildResult client (phone ++ "@c.us") = .ok r)
    (httl : tP ≤ t + cache.ttl) :
    (handler client cache t phone).resp.source = some "live" ∧
    (handler client cache t phone).resp.result = some (.vobj r) ∧
    (handler client (handler client cache t phone).cache tP phone).resp.source =
      some "cache" ∧
    (handler client (handler client cache t phone).cache tP phone).resp.cacheStatus =
      some .HIT ∧
    (handler client (handler client cache t phone).cache tP phone).resp.result =
      (handler client cache t phone).resp.result ∧
    (handler client (handler client cache t phone).cache tP phone).upstreamCalls = 0 := by
  have hp1 : handlerPhase1 cache t phone = .miss := by
    unfold handlerPhase1
    simp [hmiss]
  have h1 : handler client cache t phone =
      { resp := { status := 200, cacheStatus := some .MISS, success := true,
                  result := some (.vobj r), source := some "live", error := none },
        cache := cache.set (cacheKey phone) (.vobj r) t,
        upstreamCalls := 1, cacheReads := 1 } := by
    unfold handler finishPhase1 handlerPhase2
    rw [hp1, hok]
  have hget : (cache.set (cacheKey phone) (.vobj r) t).get (cacheKey phone) tP = .vobj r :=
    Cache.get_set_self cache (cacheKey phone) (.vobj r) t tP httl
  have hp2 : handlerPhase1 (cache.set (cacheKey phone) (.vobj r) t) tP phone =
      .hit (.vobj r) := by
    unfold handlerPhase1
    simp [hget, truthy]
  have h2 : handler client (cache.set (cacheKey phone) (.vobj r) t) tP phone =
      { resp := { status := 200, cacheStatus := some .HIT, success := true,
                  result := some (.vobj r), source := some "cache", error := none },
        cache := cache.set (cacheKey phone) (.vobj r) t,
        upstreamCalls := 0, cacheReads := 1 } := by
    unfold handler
    rw [hp2]
    rfl
  rw [h1]
  dsimp only
  rw [h2]
  exact ⟨rfl, rfl, rfl, rfl, rfl, rfl⟩

/-- C6 witness: the Alice client on an empty cache, second lookup one
second later with the default 600 second TTL. -/
theorem c6_second_lookup_hits_witness :
    (handler aliceClient emptyCache 0 "15551234567").resp.source = some "live" ∧
    (handler aliceClient emptyCache 0 "15551234567").resp.result =
      some (.vobj aliceResult) ∧
    (handler aliceClient (handler aliceClient emptyCache 0 "15551234567").cache 1
        "15551234567").resp.source = some "cache" ∧
    (handler aliceClient (handler aliceClient emptyCache 0 "15551234567").cache 1
        "15551234567").resp.cacheStatus = some .HIT ∧
    (handler aliceClient (handler aliceClient emptyCache 0 "15551234567").cache 1
        "15551234567").resp.result =
      (handler aliceClient emptyCache 0 "15551234567").resp.result ∧
    (handler aliceClient (handler aliceClient emptyCache 0 "15551234567").cache 1
        "15551234567").upstreamCalls = 0 :=
  c6_second_lookup_hits aliceClient emptyCache 0 1 "15551234567" aliceResult (by decide)
    rfl (by decide)

/-- C7 counterexample: on the Alice example of the spec the handler
returns a result object whose fields are registered, name, number,
profile_picture_url and is_business; it carries none of the fields
displayName, canonicalNumber, avatarUrl or isBusiness the claim
requires. -/
theorem c7_counterexample :
    (handler aliceClient emptyCache 0 "15559999999").resp.result =
      some (.vobj aliceResult) ∧
    hasField aliceResult "displayName" = false ∧
    hasField aliceResult "canonicalNumber" = false ∧
    hasField aliceResult "avatarUrl" = false ∧
    hasField aliceResult "isBusiness" = false ∧
    hasField aliceResult "name" = true ∧
    hasField aliceResult "number" = true ∧
    hasField aliceResult "profile_picture_url" = true ∧
    hasField aliceResult "is_business" = true := by
  decide

/-- C7 amended: for every identifier the upstream reports as registered,
the result object has exactly the fields registered, name, number,
profile_picture_url and is_business (in that order), with absent upstream
values normalized to explicit nulls and an absent business flag to
false. -/
theorem c7_result_fields (client : UpstreamClient) (cache : Cache) (now : Nat)
    (phone : String) (ct : Contact) (pfp : Option String)
    (hreg : client.isRegisteredUser (phone ++ "@c.us") = .ok true)
    (hct : client.getContactById (phone ++ "@c.us") = .ok ct)
    (hp : client.getProfilePicUrl (phone ++ "@c.us") = .ok pfp)
    (hmiss : truthy (cache.get (cacheKey phone) now) = false) :
    (handler client cache now phone).resp.result = some (.vobj
      [("registered", .pbool true),
       ("name", orNullStr ct.pushname),
       ("number", orNullStr ct.number),
       ("profile_picture_url", orNullStr pfp),
       ("is_business", .pbool (orFalse ct.isBusiness))]) := by
  have hbr : buildResult client (phone ++ "@c.us") = .ok
      [("registered", .pbool true),
       ("name", orNullStr ct.pushname),
       ("number", orNullStr ct.number),
       ("profile_picture_url", orNullStr pfp),
       ("is_business", .pbool (orFalse ct.isBusiness))] := by
    unfold buildResult
    rw [hreg]
    simp [hct, hp]
  have hp1 : handlerPhase1 cache now phone = .miss := by
    unfold handlerPhase1
    simp [hmiss]
  unfold handler finishPhase1 handlerPhase2
  simp [hp1, hbr]

/-- C7 amended witness: the Alice example, with name Alice, number
15559999999, a null profile picture URL and is_business false. -/
theorem c7_result_fields_witness :
    (handler aliceClient emptyCache 0 "15551234567").resp.result = some (.vobj
      [("registered", .pbool true),
       ("name", orNullStr (some "Alice")),
       ("number", orNullStr (some "15559999999")),
       ("profile_picture_url", orNullStr none),
       ("is_business", .pbool (orFalse (some false)))]) :=
  c7_result_fields aliceClient emptyCache 0 "15551234567"
    { pushname := some "Alice", number := some "15559999999", isBusiness := some false }
    none rfl rfl rfl (by decide)

/-- Every result object a successful upstream query yields starts with a
boolean registered field, and its object value is truthy. -/
theorem buildResult_shape (client : UpstreamClient) (pid : String) (r : JObj)
    (h : buildResult client pid = .ok r) :
    isLookupObj (.vobj r) = true ∧ truthy (.vobj r) = true := by
  refine ⟨?_, rfl⟩
  unfold buildResult at h
  cases hr : client.isRegisteredUser pid with
  | error e => rw [hr] at h; simp at h
  | ok b =>
    rw [hr] at h
    cases b with
    | false =>
      simp at h
      rw [← h]
      rfl
    | true =>
      cases hc : client.getContactById pid with
      | error e => rw [hc] at h; simp at h
      | ok ct =>
        rw [hc] at h
        cases hp : client.getProfilePicUrl pid with
        | error e => rw [hp] at h; simp at h
        | ok p =>
          rw [hp] at h
          simp at h
          rw [← h]
          rfl

/-- C10: every entry the handler adds to the cache is an object headed by
a boolean registered field and is truthy under the hit test; consequently
whenever the cache read for the requested key yields a truthy value (a
stored, unexpired entry), the handler reports a HIT with that value and
performs no upstream call. -/
theorem c10_stored_entries_truthy (client : UpstreamClient) (cache : Cache) (now : Nat)
    (phone : String) :
    (∀ e ∈ (handler client cache now phone).cache.entries,
        e ∈ cache.entries ∨ (isLookupObj e.2.1 = true ∧ truthy e.2.1 = true)) ∧
    (∀ v : JSVal, cache.get (cacheKey phone) now = v → truthy v = true →
        (handler client cache now phone).resp.cacheStatus = some .HIT ∧
        (handler client cache now phone).upstreamCalls = 0 ∧
        (handler client cache now phone).resp.result = some v) := by
  have hgdef : handler client cache now phone =
      finishPhase1 client cache now phone (handlerPhase1 cache now phone) := rfl
  cases hp1 : handlerPhase1 cache now phone with
  | hit v0 =>
    have hv0 : cache.get (cacheKey phone) now = v0 := by
      unfold handlerPhase1 at hp1
      by_cases ht : truthy (cache.get (cacheKey phone) now) = true
      · simpa [ht] using hp1
      · simp only [Bool.not_eq_true] at ht
        simp [ht] at hp1
    have hh : handler client cache now phone =
        { resp := { status := 200, cacheStatus := some .HIT, success := true,
                    result := some v0, source := some "cache", error := none },
          cache := cache, upstreamCalls := 0, cacheReads := 1 } := by
      rw [hgdef, hp1]
      rfl
    rw [hh]
    constructor
    · intro e he
      exact Or.inl he
    · intro v hgv htv
      have hvv : v = v0 := by rw [← hgv, hv0]
      subst hvv
      exact ⟨rfl, rfl, rfl⟩
  | miss =>
    have hmiss : truthy (cache.get (cacheKey phone) now) = false := by
      unfold handlerPhase1 at hp1
      by_cases ht : truthy (cache.get (cacheKey phone) now) = true
      · simp [ht] at hp1
      · simpa using ht
    constructor
    · intro e he
      rw [hgdef, hp1] at he
      cases hbr : buildResult client (phone ++ "@c.us") with
      | ok r =>
        have hh : finishPhase1 client cache now phone .miss =
            { resp := { status := 200, cacheStatus := some .MISS, success := true,
                        result := some (.vobj r), source := some "live", error := none },
              cache := cache.set (cacheKey phone) (.vobj r) now,
              upstreamCalls := 1, cacheReads := 1 } := by
          unfold finishPhase1 handlerPhase2
          rw [hbr]
        rw [hh] at he
        unfold Cache.set at he
        rcases List.mem_cons.mp he with he | he
        · subst he
          exact Or.inr (buildResult_shape client (phone ++ "@c.us") r hbr)
        · exact Or.inl (List.mem_of_mem_filter he)
      | error e2 =>
        have hh : finishPhase1 client cache now phone .miss =
            { resp := { status := 500, cacheStatus := some .MISS, success := false,
                        result := none, source := none,
                        error := some "An internal server error occurred." },
              cache := cache, upstreamCalls := 1, cacheReads := 1 } := by
          unfold finishPhase1 handlerPhase2
          rw [hbr]
        rw [hh] at he
        exact Or.inl he
    · intro v hgv htv
      rw [hgv] at hmiss
      rw [htv] at hmiss
      exact absurd hmiss (by decide)

/-- C10 witness: a cache holding an unexpired stored-shape entry for the
requested identifier makes the handler report a HIT with that value and no
upstream call. -/
theorem c10_stored_entries_truthy_witness :
    (handler aliceClient
        { ttl := 600, entries := [(cacheKey "15551234567", .vobj [("registered", .pbool false)], 0)] }
        5 "15551234567").resp.cacheStatus = some .HIT ∧
    (handler aliceClient
        { ttl := 600, entries := [(cacheKey "15551234567", .vobj [("registered", .pbool false)], 0)] }
        5 "15551234567").upstreamCalls = 0 ∧
    (handler aliceClient
        { ttl := 600, entries := [(cacheKey "15551234567", .vobj [("registered", .pbool false)], 0)] }
        5 "15551234567").resp.result = some (.vobj [("registered", .pbool false)]) :=
  (c10_stored_entries_truthy aliceClient
      { ttl := 600, entries := [(cacheKey "15551234567", .vobj [("registered", .pbool false)], 0)] }
      5 "15551234567").2 (.vobj [("registered", .pbool false)]) (by decide) (by decide)

end WhatsAppOSINT
